import Mathlib

/-!
Verification development for the x402 payment-authorization core of the
serenorg x402 MCP server.  The embedding follows src/services/serenService.ts
(SerenService.executeQuery and SerenService.buildPaymentPayload).  The helper
modules src/signing/eip712.ts, src/gateway/client.ts and src/wallet are not
part of the available sources; where a definition depends on them it is
modelled from the specification and marked as such in its doc comment.
-/

namespace X402

/-- EIP-712 domain configuration optionally carried in a payment
requirement under extra.eip712 (all fields optional on the wire). -/
structure Eip712Config where
  chainId : Option Nat
  verifyingContract : Option String
  name : Option String
  version : Option String
deriving DecidableEq, Repr

/-- The optional extra object of a payment requirement. -/
structure RequirementExtra where
  eip712 : Option Eip712Config
deriving DecidableEq, Repr

/-- One accepted payment method offered by the server in a 402 response
(gateway/types.ts PaymentRequirement, as consumed by serenService.ts). -/
structure PaymentRequirement where
  scheme : String
  network : String
  maxAmountRequired : String
  asset : String
  payTo : String
  resource : String
  description : String
  mimeType : String
  maxTimeoutSeconds : Int
  extra : Option RequirementExtra
deriving DecidableEq, Repr

/-- Modelled from the spec: the Domain record built by buildDomain in
src/signing/eip712.ts, which is not under src/.  It packages the
domain-separation parameters (chain id, verifying contract, protocol
name/version) that scope a signature to one verification context. -/
structure Domain where
  chainId : Nat
  verifyingContract : String
  name : Option String
  version : Option String
deriving DecidableEq, Repr

/-- Modelled from the spec: buildDomain in src/signing/eip712.ts is not under
src/; per the spec it packages the given domain-separation parameters. -/
def buildDomain (chainId : Nat) (verifyingContract : String)
    (name version : Option String) : Domain :=
  { chainId := chainId, verifyingContract := verifyingContract,
    name := name, version := version }

/-- The canonical payable instruction: payer, payee, value (base-unit decimal
string), validity window in Unix seconds, anti-replay nonce.  The field
named from in the source is from_ here (Lean keyword). -/
structure AuthorizationMessage where
  from_ : String
  to_ : String
  value : String
  validAfter : Int
  validBefore : Int
  nonce : String
deriving DecidableEq, Repr

/-- Modelled from the spec: buildAuthorizationMessage in
src/signing/eip712.ts is not under src/.  Per the spec it copies the given
fields verbatim into the canonical message and attaches a fresh random
nonce; the nonce is passed in here as a parameter since the embedding is
deterministic.  It receives the already-computed window, never the
requirement itself. -/
def buildAuthorizationMessage (from_ to_ value : String)
    (validAfter validBefore : Int) (nonce : String) : AuthorizationMessage :=
  { from_ := from_, to_ := to_, value := value,
    validAfter := validAfter, validBefore := validBefore, nonce := nonce }

/-- Modelled from the spec: the typed-data pair produced by buildTypedData in
src/signing/eip712.ts (domain plus message), handed to the wallet signer. -/
structure TypedData where
  domain : Domain
  message : AuthorizationMessage
deriving DecidableEq, Repr

/-- Modelled from the spec: buildTypedData in src/signing/eip712.ts is not
under src/; it pairs the domain with the message for signing. -/
def buildTypedData (domain : Domain) (message : AuthorizationMessage) :
    TypedData :=
  { domain := domain, message := message }

/-- Outcome of wallet.signTypedData: a signature, a user rejection
(UserRejectedError in src/wallet/types.ts), or some other failure. -/
inductive SignResult where
  | ok (signature : String)
  | userRejected
  | failed (message : String)
deriving DecidableEq, Repr

/-- Wire authorization object inside the payment payload: value, validAfter
and validBefore are decimal strings (serenService.ts lines 295-302). -/
structure WireAuthorization where
  from_ : String
  to_ : String
  value : String
  validAfter : String
  validBefore : String
  nonce : String
deriving DecidableEq, Repr

/-- The payload field of the wire envelope: signature plus authorization. -/
structure PayloadBody where
  signature : String
  authorization : WireAuthorization
deriving DecidableEq, Repr

/-- The wire payment payload envelope
(x402Version, scheme, network, payload). -/
structure PaymentPayload where
  x402Version : Nat
  scheme : String
  network : String
  payload : PayloadBody
deriving DecidableEq, Repr

/-- Errors that abort buildPaymentPayload: the signer throwing
UserRejectedError, or any other thrown Error carrying a message. -/
inductive PayError where
  | userRejected
  | other (message : String)
deriving DecidableEq, Repr

/-- Domain resolution of serenService.ts lines 262-269: take
requirement.extra.eip712 fields when present, else chain id falls back to
the literal 8453 and the verifying contract falls back to
requirement.asset. -/
def resolvedDomain (requirement : PaymentRequirement) : Domain :=
  let eip712Config := requirement.extra.bind RequirementExtra.eip712
  buildDomain
    ((eip712Config.bind Eip712Config.chainId).getD 8453)
    ((eip712Config.bind Eip712Config.verifyingContract).getD requirement.asset)
    (eip712Config.bind Eip712Config.name)
    (eip712Config.bind Eip712Config.version)

/-- The authorization message built by serenService.ts lines 271-283:
validAfter = now - 60, validBefore = now + requirement.maxTimeoutSeconds,
value and payee copied from the requirement. -/
def authorizationMessageOf (requirement : PaymentRequirement)
    (fromAddress : String) (now : Int) (nonce : String) :
    AuthorizationMessage :=
  buildAuthorizationMessage fromAddress requirement.payTo
    requirement.maxAmountRequired (now - 60)
    (now + requirement.maxTimeoutSeconds) nonce

/-- SerenService.buildPaymentPayload (serenService.ts lines 257-305): build
the domain and the authorization message, sign the typed data, and wrap the
result in the wire envelope.  The wall clock, the fresh nonce and the signer
outcome are parameters of the embedding. -/
def buildPaymentPayload (requirement : PaymentRequirement)
    (fromAddress : String) (now : Int) (nonce : String)
    (sign : TypedData → SignResult) : Except PayError PaymentPayload :=
  let domain := resolvedDomain requirement
  let validAfter := now - 60
  let validBefore := now + requirement.maxTimeoutSeconds
  let message := authorizationMessageOf requirement fromAddress now nonce
  let typedData := buildTypedData domain message
  match sign typedData with
  | .userRejected => .error .userRejected
  | .failed m => .error (.other m)
  | .ok signature =>
    .ok { x402Version := 1
          scheme := requirement.scheme
          network := requirement.network
          payload :=
            { signature := signature
              authorization :=
                { from_ := fromAddress
                  to_ := requirement.payTo
                  value := requirement.maxAmountRequired
                  validAfter := toString validAfter
                  validBefore := toString validBefore
                  nonce := message.nonce } } }

/-- Settlement record optionally embedded in a query result
(result.settlement).  The transaction field is optional to model the
optional-chaining access settlement?.transaction. -/
structure Settlement where
  payer : Option String
  transaction : Option String
  network : Option String
deriving DecidableEq, Repr

/-- QueryResult data returned by the gateway (gateway/types.ts), as consumed
by serenService.ts.  Row contents are opaque to the core; rows are modelled
as strings. -/
structure QueryResult where
  rows : List String
  rowCount : Nat
  estimatedCost : String
  actualCost : String
  executionTime : Nat
  settlement : Option Settlement
deriving DecidableEq, Repr

/-- The accepted-methods envelope of a 402 response:
x402Version plus the accepts list. -/
structure PaymentRequirementsResponse where
  x402Version : Nat
  accepts : List PaymentRequirement
deriving DecidableEq, Repr

/-- One response of GatewayClient.queryDatabase as consumed by
serenService.ts: HTTP status, optional result data, optional 402
payment-requirements envelope, optional encoded payment-response header. -/
structure GatewayResponse where
  status : Nat
  data : Option QueryResult
  paymentRequired : Option PaymentRequirementsResponse
  paymentResponse : Option String
deriving DecidableEq, Repr

/-- Input of SerenService.executeQuery. -/
structure ExecuteQueryParams where
  sql : String
  providerId : String
deriving DecidableEq, Repr

/-- Result of SerenService.executeQuery; absent optional fields are none. -/
structure ExecuteQueryResult where
  success : Bool
  rows : Option (List String) := none
  rowCount : Option Nat := none
  estimatedCost : Option String := none
  actualCost : Option String := none
  executionTime : Option Nat := none
  txHash : Option String := none
  error : Option String := none
deriving DecidableEq, Repr

/-- The request object sent to GatewayClient.queryDatabase
(publisherId, agentWallet, sql). -/
structure QueryRequest where
  publisherId : String
  agentWallet : String
  sql : String
deriving DecidableEq, Repr

/-- Observable side effects of one executeQuery run, in order: touching the
wallet provider (connect and getAddress), a gateway request with an optional
payment payload, and an attempt to build and sign an authorization. -/
inductive Event where
  | walletTouched
  | gatewayRequest (request : QueryRequest) (payload : Option PaymentPayload)
  | signAttempt
deriving DecidableEq, Repr

/-- The environment one executeQuery run interacts with: the wallet address,
the two gateway responses (first for the unauthenticated request, second for
the authorized retry), the wall clock, the fresh nonce, the signer outcome,
and the payment-response decoder.  Modelled from the spec where the sources
are missing: decode stands for GatewayClient.decodePaymentResponse in
src/gateway/client.ts (not under src/), returning the optional transaction
field of the decoded payment response. -/
structure Env where
  agentWallet : String
  resp1 : GatewayResponse
  resp2 : GatewayResponse
  now : Int
  nonce : String
  sign : TypedData → SignResult
  decode : String → Option String

/-- JavaScript truthiness of an optional string: undefined and the empty
string are falsy. -/
def strTruthy : Option String → Bool
  | none => false
  | some s => s ≠ ""

/-- Whitespace test for the JS trim call, covering the ASCII whitespace
characters that can occur in SQL text. -/
def isSpaceChar (c : Char) : Bool :=
  c == ' ' || c == '\t' || c == '\n' || c == '\r'

/-- ASCII upper-casing of one character, as performed by the JS toUpperCase
call on ASCII SQL text. -/
def upperChar (c : Char) : Char :=
  if 97 ≤ c.toNat ∧ c.toNat ≤ 122 then Char.ofNat (c.toNat - 32) else c

/-- The JS String.prototype.trim on the character list: drop whitespace
from both ends. -/
def jsTrimList (l : List Char) : List Char :=
  ((l.dropWhile isSpaceChar).reverse.dropWhile isSpaceChar).reverse

/-- The JS String.prototype.trim (restricted to ASCII whitespace). -/
def jsTrim (s : String) : String := String.mk (jsTrimList s.data)

/-- The JS String.prototype.toUpperCase (restricted to ASCII case
mapping). -/
def jsToUpperCase (s : String) : String := String.mk (s.data.map upperChar)

/-- Character-list test of a leading occurrence: the second list read off
at the start of the first. -/
def listStartsWith : List Char → List Char → Bool
  | _, [] => true
  | [], _ :: _ => false
  | a :: as, b :: bs => a == b && listStartsWith as bs

/-- The JS String.prototype.startsWith. -/
def jsStartsWith (s pre : String) : Bool := listStartsWith s.data pre.data

/-- The input-validation prefix of executeQuery (serenService.ts lines
69-81): empty providerId, empty sql, and the SELECT prefix test on the
trimmed upper-cased statement, in that order. -/
def validateInput (params : ExecuteQueryParams) : Option String :=
  if params.providerId = "" then some "providerId is required"
  else if params.sql = "" then some "sql is required"
  else if ¬ (jsStartsWith (jsToUpperCase (jsTrim params.sql)) "SELECT") then
    some "Only SELECT queries are allowed"
  else none

/-- The non-402 branch of executeQuery (serenService.ts lines 102-116): with
data present the body is passed through as a success, otherwise an
unexpected-response error is returned. -/
def notPaymentBranch (response : GatewayResponse) : ExecuteQueryResult :=
  match response.data with
  | some d =>
    { success := true, rows := some d.rows, rowCount := some d.rowCount,
      estimatedCost := some d.estimatedCost, actualCost := some d.actualCost,
      executionTime := some d.executionTime }
  | none => { success := false, error := some "Unexpected response from gateway" }

/-- Transaction-hash extraction after a paid retry (serenService.ts lines
146-154): prefer a truthy settlement transaction; else, when the
payment-response header is truthy, decode it and take its transaction
field. -/
def extractTxHash (paidResult : GatewayResponse) (d : QueryResult)
    (decode : String → Option String) : Option String :=
  let fromPaymentResponse : Option String :=
    match paidResult.paymentResponse with
    | some pr => if pr = "" then none else decode pr
    | none => none
  match d.settlement.bind Settlement.transaction with
  | some t => if t = "" then fromPaymentResponse else some t
  | none => fromPaymentResponse

/-- SerenService.executeQuery (serenService.ts lines 68-174): validate the
input, touch the wallet, issue the unauthenticated request, on a 402 with a
payment-requirements envelope pick the first accepted method, build and sign
the payment payload, retry once with the payload, and interpret the final
response.  Returns the result together with the ordered trace of observable
events. -/
def executeQuery (params : ExecuteQueryParams) (env : Env) :
    ExecuteQueryResult × List Event :=
  match validateInput params with
  | some e => ({ success := false, error := some e }, [])
  | none =>
    let request : QueryRequest :=
      { publisherId := params.providerId, agentWallet := env.agentWallet,
        sql := params.sql }
    let initialResult := env.resp1
    match initialResult.paymentRequired with
    | none =>
      (notPaymentBranch initialResult,
       [Event.walletTouched, Event.gatewayRequest request none])
    | some paymentRequired =>
      if initialResult.status ≠ 402 then
        (notPaymentBranch initialResult,
         [Event.walletTouched, Event.gatewayRequest request none])
      else
        match paymentRequired.accepts.head? with
        | none =>
          ({ success := false, error := some "No payment method available" },
           [Event.walletTouched, Event.gatewayRequest request none])
        | some paymentRequirement =>
          match buildPaymentPayload paymentRequirement env.agentWallet
              env.now env.nonce env.sign with
          | .error .userRejected =>
            ({ success := false,
               error := some "User rejected the payment request" },
             [Event.walletTouched, Event.gatewayRequest request none,
              Event.signAttempt])
          | .error (.other m) =>
            ({ success := false, error := some m },
             [Event.walletTouched, Event.gatewayRequest request none,
              Event.signAttempt])
          | .ok paymentPayload =>
            let paidResult := env.resp2
            let trace :=
              [Event.walletTouched, Event.gatewayRequest request none,
               Event.signAttempt,
               Event.gatewayRequest request (some paymentPayload)]
            match paidResult.data with
            | none =>
              ({ success := false,
                 error := some "No data returned from gateway" }, trace)
            | some d =>
              ({ success := true, rows := some d.rows,
                 rowCount := some d.rowCount,
                 estimatedCost := some d.estimatedCost,
                 actualCost := some d.actualCost,
                 executionTime := some d.executionTime,
                 txHash := extractTxHash paidResult d env.decode }, trace)

/-- The gateway calls recorded in a trace, each as the request paired with
its optional payment payload. -/
def gatewayCalls (events : List Event) :
    List (QueryRequest × Option PaymentPayload) :=
  events.filterMap fun e =>
    match e with
    | .gatewayRequest r p => some (r, p)
    | _ => none

/-- The number of sign attempts recorded in a trace. -/
def signAttempts (events : List Event) : Nat :=
  events.countP fun e =>
    match e with
    | .signAttempt => true
    | _ => false

/-! Concrete fixtures, taken from the shapes used in tests/unit. -/

/-- A concrete payment requirement without domain-separation extras. -/
def sampleRequirement : PaymentRequirement :=
  { scheme := "exact", network := "base-mainnet",
    maxAmountRequired := "1000000", asset := "0xusdc", payTo := "0xgateway",
    resource := "/api/query", description := "Query",
    mimeType := "application/json", maxTimeoutSeconds := 300, extra := none }

/-- A concrete requirement whose maxTimeoutSeconds is zero. -/
def zeroTimeoutRequirement : PaymentRequirement :=
  { sampleRequirement with maxTimeoutSeconds := 0 }

/-- A concrete EIP-712 configuration carried in extra. -/
def sampleEip712 : Eip712Config :=
  { chainId := some 84532, verifyingContract := some "0xverifier",
    name := some "USD Coin", version := some "2" }

/-- A concrete requirement that does carry domain-separation extras. -/
def extraRequirement : PaymentRequirement :=
  { sampleRequirement with extra := some { eip712 := some sampleEip712 } }

/-- A signer that always returns a fixed signature. -/
def alwaysSign : TypedData → SignResult := fun _ => .ok "0xsig"

/-- A concrete successful query result with an inline settlement record. -/
def sampleData : QueryResult :=
  { rows := ["row1"], rowCount := 1, estimatedCost := "0.025",
    actualCost := "0.020", executionTime := 100,
    settlement := some { payer := some "0xagent",
                         transaction := some "0xtx456",
                         network := some "base-mainnet" } }

/-- A concrete 402 response offering sampleRequirement. -/
def resp402 : GatewayResponse :=
  { status := 402, data := none,
    paymentRequired := some { x402Version := 1, accepts := [sampleRequirement] },
    paymentResponse := none }

/-- A concrete 200 response carrying sampleData. -/
def respOk : GatewayResponse :=
  { status := 200, data := some sampleData,
    paymentRequired := none, paymentResponse := none }

/-- A concrete environment for a full successful paid-query run. -/
def sampleEnv : Env :=
  { agentWallet := "0xagent", resp1 := resp402, resp2 := respOk,
    now := 1000, nonce := "nonce1", sign := alwaysSign,
    decode := fun _ => none }

/-! Claim theorems. -/

/-- C1: for every payment requirement with maxTimeoutSeconds > 0 and every
build time now, the built AuthorizationMessage has validAfter = now - 60 and
validBefore = now + maxTimeoutSeconds, hence validAfter < now < validBefore
and validBefore - now = maxTimeoutSeconds. -/
theorem C1_validity_window (requirement : PaymentRequirement)
    (fromAddress : String) (now : Int) (nonce : String)
    (h : 0 < requirement.maxTimeoutSeconds) :
    (authorizationMessageOf requirement fromAddress now nonce).validAfter =
      now - 60 ∧
    (authorizationMessageOf requirement fromAddress now nonce).validBefore =
      now + requirement.maxTimeoutSeconds ∧
    (authorizationMessageOf requirement fromAddress now nonce).validAfter <
      now ∧
    now <
      (authorizationMessageOf requirement fromAddress now nonce).validBefore ∧
    (authorizationMessageOf requirement fromAddress now nonce).validBefore -
      now = requirement.maxTimeoutSeconds := by
  refine ⟨rfl, rfl, ?_, ?_, ?_⟩ <;>
    (simp only [authorizationMessageOf, buildAuthorizationMessage]; omega)

/-- Witness for C1 at the concrete sampleRequirement (timeout 300). -/
theorem C1_validity_window_witness :
    (0 : Int) < sampleRequirement.maxTimeoutSeconds ∧
    ((authorizationMessageOf sampleRequirement "0xagent" 1000 "n").validAfter <
      1000 ∧
     (1000 : Int) <
      (authorizationMessageOf sampleRequirement "0xagent" 1000 "n").validBefore) :=
  ⟨by decide,
   (C1_validity_window sampleRequirement "0xagent" 1000 "n" (by decide)).2.2.1,
   (C1_validity_window sampleRequirement "0xagent" 1000 "n" (by decide)).2.2.2.1⟩

/-- C3 counterexample: with maxTimeoutSeconds = 0 the builder does not fail;
it produces and signs a payload (validAfter 940, validBefore 1000 at
now = 1000), so no InvalidRequirementError is raised. -/
theorem C3_counterexample :
    buildPaymentPayload zeroTimeoutRequirement "0xagent" 1000 "n" alwaysSign =
      .ok { x402Version := 1, scheme := "exact", network := "base-mainnet",
            payload :=
              { signature := "0xsig",
                authorization :=
                  { from_ := "0xagent", to_ := "0xgateway",
                    value := "1000000", validAfter := "940",
                    validBefore := "1000", nonce := "n" } } } := by
  rfl

/-- C3 amended: buildPaymentPayload performs no check on maxTimeoutSeconds.
For every requirement with maxTimeoutSeconds <= 0 whose signer accepts, it
still produces a signed payload whose window is
validAfter = now - 60, validBefore = now + maxTimeoutSeconds. -/
theorem C3_no_timeout_check (requirement : PaymentRequirement)
    (fromAddress : String) (now : Int) (nonce sig : String)
    (sign : TypedData → SignResult)
    (_ht : requirement.maxTimeoutSeconds ≤ 0)
    (hs : sign (buildTypedData (resolvedDomain requirement)
            (authorizationMessageOf requirement fromAddress now nonce)) =
          .ok sig) :
    buildPaymentPayload requirement fromAddress now nonce sign =
      .ok { x402Version := 1, scheme := requirement.scheme,
            network := requirement.network,
            payload :=
              { signature := sig,
                authorization :=
                  { from_ := fromAddress, to_ := requirement.payTo,
                    value := requirement.maxAmountRequired,
                    validAfter := toString (now - 60),
                    validBefore := toString (now + requirement.maxTimeoutSeconds),
                    nonce := nonce } } } := by
  simp only [buildPaymentPayload, authorizationMessageOf,
    buildAuthorizationMessage] at hs ⊢
  rw [hs]

/-- Witness for C3 amended at the zero-timeout requirement. -/
theorem C3_no_timeout_check_witness :
    buildPaymentPayload zeroTimeoutRequirement "0xagent" 1000 "n" alwaysSign =
      .ok { x402Version := 1, scheme := zeroTimeoutRequirement.scheme,
            network := zeroTimeoutRequirement.network,
            payload :=
              { signature := "0xsig",
                authorization :=
                  { from_ := "0xagent", to_ := zeroTimeoutRequirement.payTo,
                    value := zeroTimeoutRequirement.maxAmountRequired,
                    validAfter := toString ((1000 : Int) - 60),
                    validBefore :=
                      toString ((1000 : Int) + zeroTimeoutRequirement.maxTimeoutSeconds),
                    nonce := "n" } } } :=
  C3_no_timeout_check zeroTimeoutRequirement "0xagent" 1000 "n" "0xsig"
    alwaysSign (by decide) rfl

/-- C4 counterexample: when requirement.extra is absent, the chain id falls
back to the literal constant 8453 hard-coded in buildPaymentPayload, for
every requirement alike; there is no caller-supplied default parameter in
its signature. -/
theorem C4_counterexample :
    (resolvedDomain sampleRequirement).chainId = 8453 ∧
    (resolvedDomain { sampleRequirement with
                        asset := "0xother",
                        network := "ethereum-mainnet" }).chainId = 8453 ∧
    (resolvedDomain sampleRequirement).verifyingContract = "0xusdc" :=
  ⟨rfl, rfl, rfl⟩

/-- C4 amended: domain-separation parameters come from
requirement.extra.eip712 when present; otherwise the verifying contract
falls back to requirement.asset and the chain id falls back to the
hard-coded constant 8453 (not a caller-supplied default). -/
theorem C4_domain_fallback (requirement : PaymentRequirement) :
    (∀ cfg, requirement.extra.bind RequirementExtra.eip712 = some cfg →
      (resolvedDomain requirement).chainId = cfg.chainId.getD 8453 ∧
      (resolvedDomain requirement).verifyingContract =
        cfg.verifyingContract.getD requirement.asset) ∧
    (requirement.extra.bind RequirementExtra.eip712 = none →
      (resolvedDomain requirement).chainId = 8453 ∧
      (resolvedDomain requirement).verifyingContract = requirement.asset) := by
  constructor
  · intro cfg hcfg
    simp [resolvedDomain, buildDomain, hcfg]
  · intro hnone
    simp [resolvedDomain, buildDomain, hnone]

/-- Witness for C4 amended: extras present at extraRequirement, absent at
sampleRequirement. -/
theorem C4_domain_fallback_witness :
    ((resolvedDomain extraRequirement).chainId = sampleEip712.chainId.getD 8453 ∧
     (resolvedDomain extraRequirement).verifyingContract =
       sampleEip712.verifyingContract.getD extraRequirement.asset) ∧
    ((resolvedDomain sampleRequirement).chainId = 8453 ∧
     (resolvedDomain sampleRequirement).verifyingContract =
       sampleRequirement.asset) :=
  ⟨(C4_domain_fallback extraRequirement).1 sampleEip712 rfl,
   (C4_domain_fallback sampleRequirement).2 rfl⟩

/-- C8: the built payload copies requirement.maxAmountRequired verbatim as
the authorization value (never through a numeric type), and the wire
envelope is x402Version 1, scheme, network, and a payload of signature plus
authorization with from, to, value, validAfter, validBefore, nonce, the
window fields rendered as decimal strings. -/
theorem C8_wire_envelope (requirement : PaymentRequirement)
    (fromAddress : String) (now : Int) (nonce sig : String)
    (sign : TypedData → SignResult)
    (hs : sign (buildTypedData (resolvedDomain requirement)
            (authorizationMessageOf requirement fromAddress now nonce)) =
          .ok sig) :
    buildPaymentPayload requirement fromAddress now nonce sign =
      .ok { x402Version := 1, scheme := requirement.scheme,
            network := requirement.network,
            payload :=
              { signature := sig,
                authorization :=
                  { from_ := fromAddress, to_ := requirement.payTo,
                    value := requirement.maxAmountRequired,
                    validAfter := toString (now - 60),
                    validBefore := toString (now + requirement.maxTimeoutSeconds),
                    nonce := nonce } } } := by
  simp only [buildPaymentPayload, authorizationMessageOf,
    buildAuthorizationMessage] at hs ⊢
  rw [hs]

/-- Witness for C8 at a requirement whose amount string is not numeric,
showing the verbatim string copy. -/
theorem C8_wire_envelope_witness :
    buildPaymentPayload
      { sampleRequirement with maxAmountRequired := "00123verbatim" }
      "0xagent" 1000 "n" alwaysSign =
      .ok { x402Version := 1, scheme := "exact", network := "base-mainnet",
            payload :=
              { signature := "0xsig",
                authorization :=
                  { from_ := "0xagent", to_ := "0xgateway",
                    value := "00123verbatim", validAfter := toString ((1000 : Int) - 60),
                    validBefore := toString ((1000 : Int) + (300 : Int)),
                    nonce := "n" } } } :=
  C8_wire_envelope
    { sampleRequirement with maxAmountRequired := "00123verbatim" }
    "0xagent" 1000 "n" "0xsig" alwaysSign rfl

/-- A 402 response whose accepted-methods list is empty. -/
def emptyAcceptsEnv : Env :=
  { sampleEnv with
      resp1 := { status := 402, data := none,
                 paymentRequired := some { x402Version := 1, accepts := [] },
                 paymentResponse := none } }

/-- An environment whose retry response is again a 402 challenge. -/
def rejectedRetryEnv : Env := { sampleEnv with resp2 := resp402 }

/-- An environment whose retry response is a non-402 response without data. -/
def noDataRetryEnv : Env :=
  { sampleEnv with
      resp2 := { status := 200, data := none, paymentRequired := none,
                 paymentResponse := none } }

/-- An environment whose first response is a non-402 error without data. -/
def unexpectedEnv : Env :=
  { sampleEnv with
      resp1 := { status := 500, data := none, paymentRequired := none,
                 paymentResponse := none } }

/-- An environment whose first response is already a 200 with data. -/
def passEnv : Env := { sampleEnv with resp1 := respOk }

/-- An environment whose signer declines interactively. -/
def rejectEnv : Env := { sampleEnv with sign := fun _ => .userRejected }

/-- C2 counterexample: when the authorized retry again returns a 402
challenge, the orchestrator returns the generic error result with message
No data returned from gateway, the very same result as for a non-402 retry
response without data, so the outcome carries no PaymentRejectedError
classification distinguishing a server-side rejection. -/
theorem C2_counterexample :
    (executeQuery { sql := "SELECT 1", providerId := "pub" }
        rejectedRetryEnv).1 =
      { success := false, error := some "No data returned from gateway" } ∧
    (executeQuery { sql := "SELECT 1", providerId := "pub" }
        rejectedRetryEnv).1 =
    (executeQuery { sql := "SELECT 1", providerId := "pub" }
        noDataRetryEnv).1 :=
  ⟨rfl, rfl⟩

/-- C2 amended: in every run the Resource Client is invoked at most twice,
first without a payload and then at most once more with the identical
request parameters plus the payment payload; when the retry happens and its
response carries no data (as a repeated 402 does), the orchestrator returns
the generic error result with message No data returned from gateway and
issues no further request. -/
theorem C2_retry_discipline (params : ExecuteQueryParams) (env : Env) :
    (gatewayCalls (executeQuery params env).2 = [] ∨
     gatewayCalls (executeQuery params env).2 =
       [({ publisherId := params.providerId, agentWallet := env.agentWallet,
           sql := params.sql }, none)] ∨
     ∃ p, gatewayCalls (executeQuery params env).2 =
       [({ publisherId := params.providerId, agentWallet := env.agentWallet,
           sql := params.sql }, none),
        ({ publisherId := params.providerId, agentWallet := env.agentWallet,
           sql := params.sql }, some p)]) ∧
    (env.resp2.data = none →
     (gatewayCalls (executeQuery params env).2).length = 2 →
     (executeQuery params env).1 =
       { success := false, error := some "No data returned from gateway" }) := by
  unfold executeQuery
  cases hv : validateInput params with
  | some e => simp [hv, gatewayCalls]
  | none =>
    cases hpr : env.resp1.paymentRequired with
    | none => simp [hv, hpr, gatewayCalls]
    | some pr =>
      by_cases hs : env.resp1.status = 402
      · cases hh : pr.accepts.head? with
        | none => simp [hv, hpr, hs, hh, gatewayCalls]
        | some requirement =>
          cases hb : buildPaymentPayload requirement env.agentWallet env.now
              env.nonce env.sign with
          | error err =>
            cases err <;> simp [hv, hpr, hs, hh, hb, gatewayCalls]
          | ok p =>
            cases hd : env.resp2.data with
            | none =>
              refine ⟨Or.inr (Or.inr ⟨p, ?_⟩), ?_⟩ <;>
                simp [hv, hpr, hs, hh, hb, hd, gatewayCalls]
            | some d =>
              refine ⟨Or.inr (Or.inr ⟨p, ?_⟩), ?_⟩
              · simp [hv, hpr, hs, hh, hb, hd, gatewayCalls]
              · intro hnone
                simp [hd] at hnone
      · simp [hv, hpr, hs, gatewayCalls]

/-- Witness for C2 amended: a concrete run whose retry returns a second 402
challenge ends in the generic no-data error result. -/
theorem C2_retry_discipline_witness :
    (executeQuery { sql := "SELECT 1", providerId := "pub" }
        rejectedRetryEnv).1 =
      { success := false, error := some "No data returned from gateway" } :=
  (C2_retry_discipline { sql := "SELECT 1", providerId := "pub" }
    rejectedRetryEnv).2 rfl (by rfl)

/-- C5: on a 402 whose accepted-methods list is empty, executeQuery returns
the no-payment-method error result after the single unauthenticated request,
with no sign attempt and no retry. -/
theorem C5_no_payment_method (params : ExecuteQueryParams) (env : Env)
    (pr : PaymentRequirementsResponse)
    (hv : validateInput params = none)
    (hst : env.resp1.status = 402)
    (hpr : env.resp1.paymentRequired = some pr)
    (hacc : pr.accepts = []) :
    executeQuery params env =
      ({ success := false, error := some "No payment method available" },
       [Event.walletTouched,
        Event.gatewayRequest
          { publisherId := params.providerId, agentWallet := env.agentWallet,
            sql := params.sql } none]) ∧
    signAttempts (executeQuery params env).2 = 0 := by
  have h : executeQuery params env =
      ({ success := false, error := some "No payment method available" },
       [Event.walletTouched,
        Event.gatewayRequest
          { publisherId := params.providerId, agentWallet := env.agentWallet,
            sql := params.sql } none]) := by
    unfold executeQuery
    simp [hv, hpr, hst, hacc]
  exact ⟨h, by rw [h]; simp [signAttempts]⟩

/-- Witness for C5 at a concrete 402 with an empty accepts list. -/
theorem C5_no_payment_method_witness :
    executeQuery { sql := "SELECT 1", providerId := "pub" } emptyAcceptsEnv =
      ({ success := false, error := some "No payment method available" },
       [Event.walletTouched,
        Event.gatewayRequest
          { publisherId := "pub", agentWallet := "0xagent",
            sql := "SELECT 1" } none]) ∧
    signAttempts
      (executeQuery { sql := "SELECT 1", providerId := "pub" }
        emptyAcceptsEnv).2 = 0 :=
  C5_no_payment_method { sql := "SELECT 1", providerId := "pub" }
    emptyAcceptsEnv { x402Version := 1, accepts := [] } rfl rfl rfl rfl

/-- C6 counterexample: the statement SELECT 1; DROP TABLE t is not
syntactically a read-only SELECT, yet it passes validation: the Resource
Client is invoked twice and the run succeeds, so not every non-read-only
statement is rejected before I/O. -/
theorem C6_counterexample :
    (gatewayCalls
      (executeQuery { sql := "SELECT 1; DROP TABLE t", providerId := "pub" }
        sampleEnv).2).length = 2 ∧
    (executeQuery { sql := "SELECT 1; DROP TABLE t", providerId := "pub" }
        sampleEnv).1.success = true :=
  ⟨rfl, rfl⟩

/-- C6 amended: every input the validation rejects (empty resource id,
empty statement, or statement whose trimmed upper-cased text does not start
with SELECT) yields a validation error result before any I/O: the trace is
empty, so neither the wallet nor the Resource Client is touched. -/
theorem C6_fail_fast (params : ExecuteQueryParams) (env : Env) (e : String)
    (hv : validateInput params = some e) :
    executeQuery params env = ({ success := false, error := some e }, []) := by
  unfold executeQuery
  simp [hv]

/-- Witness for C6 amended at a DELETE statement. -/
theorem C6_fail_fast_witness :
    executeQuery { sql := "DELETE FROM users", providerId := "pub" }
        sampleEnv =
      ({ success := false, error := some "Only SELECT queries are allowed" },
       []) :=
  C6_fail_fast { sql := "DELETE FROM users", providerId := "pub" } sampleEnv
    "Only SELECT queries are allowed" rfl

/-- C7: when the signer declines with UserRejectedError during the sign
step, executeQuery returns the user-rejection error result and makes no
retry call: the only gateway call is the unauthenticated one. -/
theorem C7_user_rejection (params : ExecuteQueryParams) (env : Env)
    (pr : PaymentRequirementsResponse) (requirement : PaymentRequirement)
    (hv : validateInput params = none)
    (hst : env.resp1.status = 402)
    (hpr : env.resp1.paymentRequired = some pr)
    (hacc : pr.accepts.head? = some requirement)
    (hsign : env.sign (buildTypedData (resolvedDomain requirement)
        (authorizationMessageOf requirement env.agentWallet env.now
          env.nonce)) = .userRejected) :
    executeQuery params env =
      ({ success := false,
         error := some "User rejected the payment request" },
       [Event.walletTouched,
        Event.gatewayRequest
          { publisherId := params.providerId, agentWallet := env.agentWallet,
            sql := params.sql } none,
        Event.signAttempt]) ∧
    gatewayCalls (executeQuery params env).2 =
      [({ publisherId := params.providerId, agentWallet := env.agentWallet,
          sql := params.sql }, none)] := by
  have hb : buildPaymentPayload requirement env.agentWallet env.now env.nonce
      env.sign = .error .userRejected := by
    simp only [buildPaymentPayload, authorizationMessageOf,
      buildAuthorizationMessage] at hsign ⊢
    rw [hsign]
  have h : executeQuery params env =
      ({ success := false,
         error := some "User rejected the payment request" },
       [Event.walletTouched,
        Event.gatewayRequest
          { publisherId := params.providerId, agentWallet := env.agentWallet,
            sql := params.sql } none,
        Event.signAttempt]) := by
    unfold executeQuery
    simp [hv, hpr, hst, hacc, hb]
  exact ⟨h, by rw [h]; simp [gatewayCalls]⟩

/-- Witness for C7 at a concrete environment whose signer declines. -/
theorem C7_user_rejection_witness :
    executeQuery { sql := "SELECT 1", providerId := "pub" } rejectEnv =
      ({ success := false,
         error := some "User rejected the payment request" },
       [Event.walletTouched,
        Event.gatewayRequest
          { publisherId := "pub", agentWallet := "0xagent",
            sql := "SELECT 1" } none,
        Event.signAttempt]) ∧
    gatewayCalls
      (executeQuery { sql := "SELECT 1", providerId := "pub" }
        rejectEnv).2 =
      [({ publisherId := "pub", agentWallet := "0xagent",
          sql := "SELECT 1" }, none)] :=
  C7_user_rejection { sql := "SELECT 1", providerId := "pub" } rejectEnv
    { x402Version := 1, accepts := [sampleRequirement] } sampleRequirement
    rfl rfl rfl rfl rfl

/-- C9 counterexample: a non-402 response carrying no data is not passed
through as a success; executeQuery returns the unexpected-response error
result instead. -/
theorem C9_counterexample :
    (executeQuery { sql := "SELECT 1", providerId := "pub" }
        unexpectedEnv).1 =
      { success := false, error := some "Unexpected response from gateway" } :=
  rfl

/-- C9 amended: on every initial response that is not a 402 challenge the
orchestrator stops after the single request and returns the non-payment
branch: with data present the body is passed through as a success result,
and with no data it returns the unexpected-response error. -/
theorem C9_passthrough (params : ExecuteQueryParams) (env : Env)
    (hv : validateInput params = none)
    (hnp : env.resp1.status ≠ 402 ∨ env.resp1.paymentRequired = none) :
    (executeQuery params env).1 = notPaymentBranch env.resp1 ∧
    (∀ d, env.resp1.data = some d →
      notPaymentBranch env.resp1 =
        { success := true, rows := some d.rows, rowCount := some d.rowCount,
          estimatedCost := some d.estimatedCost,
          actualCost := some d.actualCost,
          executionTime := some d.executionTime }) ∧
    (env.resp1.data = none →
      notPaymentBranch env.resp1 =
        { success := false,
          error := some "Unexpected response from gateway" }) := by
  refine ⟨?_, ?_, ?_⟩
  · unfold executeQuery
    cases hpr : env.resp1.paymentRequired with
    | none => simp [hv, hpr]
    | some pr =>
      rcases hnp with hnp | hnp
      · simp [hv, hpr, hnp]
      · rw [hpr] at hnp
        cases hnp
  · intro d hd
    simp [notPaymentBranch, hd]
  · intro hd
    simp [notPaymentBranch, hd]

/-- Witness for C9 amended at a concrete 200-with-data first response. -/
theorem C9_passthrough_witness :
    (executeQuery { sql := "SELECT 1", providerId := "pub" } passEnv).1 =
      notPaymentBranch passEnv.resp1 ∧
    notPaymentBranch passEnv.resp1 =
      { success := true, rows := some sampleData.rows,
        rowCount := some sampleData.rowCount,
        estimatedCost := some sampleData.estimatedCost,
        actualCost := some sampleData.actualCost,
        executionTime := some sampleData.executionTime } :=
  ⟨(C9_passthrough { sql := "SELECT 1", providerId := "pub" } passEnv rfl
      (Or.inl (by decide))).1,
   (C9_passthrough { sql := "SELECT 1", providerId := "pub" } passEnv rfl
      (Or.inl (by decide))).2.1 sampleData rfl⟩

/-- The trace of executeQuery is empty exactly when input validation
fails. -/
theorem executeQuery_trace_empty_iff (params : ExecuteQueryParams)
    (env : Env) :
    (executeQuery params env).2 = [] ↔ validateInput params ≠ none := by
  unfold executeQuery
  cases hv : validateInput params with
  | some e => simp [hv]
  | none =>
    cases hpr : env.resp1.paymentRequired with
    | none => simp [hv, hpr]
    | some pr =>
      by_cases hs : env.resp1.status = 402
      · cases hh : pr.accepts.head? with
        | none => simp [hv, hpr, hs, hh]
        | some requirement =>
          cases hb : buildPaymentPayload requirement env.agentWallet env.now
              env.nonce env.sign with
          | error err => cases err <;> simp [hv, hpr, hs, hh, hb]
          | ok p =>
            cases hd : env.resp2.data with
            | none => simp [hv, hpr, hs, hh, hb, hd]
            | some d => simp [hv, hpr, hs, hh, hb, hd]
      · simp [hv, hpr, hs]

/-- Input validation passes exactly on a non-empty provider id, a non-empty
statement, and the SELECT prefix test on the trimmed upper-cased text. -/
theorem validateInput_none_iff (params : ExecuteQueryParams) :
    validateInput params = none ↔
      (params.providerId ≠ "" ∧ params.sql ≠ "" ∧
       jsStartsWith (jsToUpperCase (jsTrim params.sql)) "SELECT") := by
  unfold validateInput
  split_ifs with h1 h2 h3 <;> simp_all

/-- C10: the SQL validation accepts exactly those inputs whose trimmed,
upper-cased statement begins with SELECT (given non-empty provider id and
statement): the run reaches the network phase exactly then, and in
particular the statements selected 1, SELECTx and SELECT 1; DROP TABLE t
all pass validation, while a non-SELECT statement is rejected.  The check
is a case-insensitive prefix test, not a syntactic read-only parse. -/
theorem C10_prefix_test :
    (∀ params env, (executeQuery params env).2 ≠ [] ↔
      (params.providerId ≠ "" ∧ params.sql ≠ "" ∧
       jsStartsWith (jsToUpperCase (jsTrim params.sql)) "SELECT")) ∧
    validateInput { sql := "selected 1", providerId := "pub" } = none ∧
    validateInput { sql := "SELECTx", providerId := "pub" } = none ∧
    validateInput { sql := "SELECT 1; DROP TABLE t", providerId := "pub" } =
      none ∧
    validateInput { sql := "Insert into t values (1)", providerId := "pub" } =
      some "Only SELECT queries are allowed" := by
  refine ⟨fun params env => ?_, rfl, rfl, rfl, rfl⟩
  have h1 := executeQuery_trace_empty_iff params env
  have h2 := validateInput_none_iff params
  constructor
  · intro h
    by_cases hv : validateInput params = none
    · exact h2.mp hv
    · exact absurd (h1.mpr hv) h
  · intro hcond hempty
    exact (h1.mp hempty) (h2.mpr hcond)

/-- Witness for C10: the statement selected 1 proceeds to the network
phase. -/
theorem C10_prefix_test_witness :
    (executeQuery { sql := "selected 1", providerId := "pub" }
      sampleEnv).2 ≠ [] :=
  (C10_prefix_test.1 { sql := "selected 1", providerId := "pub" }
    sampleEnv).mpr (by refine ⟨?_, ?_, ?_⟩ <;> decide)

end X402
